import Mathlib

/-!
Verification development for the Bit Builder conversational bridge.

Shallow embedding of the repository's tool executors (client-side
`saveJoke` and server-side `saveTool`), the `chatWithAgent` callable,
the voice/duplex transcript state machines, the request/response text
chat, the widget tool registration, and the HTML rendering helpers,
together with theorems settling the specified properties.
-/

namespace BitBuilder

/-- A JavaScript value as it appears in tool-call argument objects.
Arrays are restricted to string arrays, which is the only array shape
the executors construct or consume. -/
inductive JVal where
  | str (s : String)
  | num (n : Int)
  | boolean (b : Bool)
  | null
  | undef
  | arr (l : List String)
  deriving DecidableEq, Repr

/-- JavaScript truthiness of a `JVal` (arrays are always truthy). -/
def jsTruthy : JVal → Bool
  | JVal.str s => s ≠ ""
  | JVal.num n => n ≠ 0
  | JVal.boolean b => b
  | JVal.null => false
  | JVal.undef => false
  | JVal.arr _ => true

/-- `typeof v === 'string'`. -/
def JVal.isStr : JVal → Bool
  | JVal.str _ => true
  | _ => false

/-- `Array.isArray(v)`. -/
def JVal.isArr : JVal → Bool
  | JVal.arr _ => true
  | _ => false

/-- The string carried by a `JVal`, defaulting to `""`. -/
def JVal.strD : JVal → String
  | JVal.str s => s
  | _ => ""

/-- The array carried by a `JVal`, defaulting to `[]`. -/
def JVal.arrD : JVal → List String
  | JVal.arr l => l
  | _ => []

/-- Reading an absent object field yields `undefined`. -/
def jsOfOpt : Option JVal → JVal
  | none => JVal.undef
  | some v => v

/-- JavaScript `a || b`. -/
def jsOr (a b : JVal) : JVal :=
  if jsTruthy a then a else b

/-- The argument object of a `save_joke` tool call: the fields the
executors read (`content`, `joke`, `tags`); any may be absent. -/
structure SaveParams where
  content : Option JVal
  joke : Option JVal
  tags : Option JVal
  deriving DecidableEq, Repr

/-- A document in the `jokes` collection as written by the executors
(`createdAt`/`updatedAt` server timestamps omitted: opaque to all
claims). The client executors write `content` unconverted, so it is a
`JVal`; `tags` is always a string array by construction. -/
structure JokeDoc where
  userId : String
  content : JVal
  tags : List String
  deriving DecidableEq, Repr

/-- Result object returned by the client-side `saveJoke` executors:
`{success: true, jokeId}` or `{error: message}` (the human-readable
`message` field of the success object is dropped: opaque to all claims). -/
inductive SaveResult where
  | success (jokeId : String)
  | failure (errorMessage : String)
  deriving DecidableEq, Repr

/-- Whether a `SaveResult` is the error shape (`result.error` truthy). -/
def SaveResult.isErr : SaveResult → Bool
  | SaveResult.success _ => false
  | SaveResult.failure _ => true

/-- Whitespace for the purposes of `String.prototype.trim` (the
characters that occur in the repository's inputs). -/
def isWS (c : Char) : Bool :=
  c = ' ' ∨ c = '\t' ∨ c = '\n' ∨ c = '\r'

/-- `t.trim()` on a character list. -/
def trimL (l : List Char) : List Char :=
  ((l.dropWhile isWS).reverse.dropWhile isWS).reverse

/-- `s.split(',')` on a character list (JS semantics: `""` splits to
`[""]`, separators at the ends yield empty fields). -/
def splitOnCommaL : List Char → List (List Char)
  | [] => [[]]
  | c :: cs =>
    match splitOnCommaL cs with
    | [] => [[]]
    | h :: t => if c = ',' then [] :: h :: t else (c :: h) :: t

/-- `tags.split(',').map(t => t.trim()).filter(Boolean)`. -/
def splitTags (s : String) : List String :=
  ((splitOnCommaL s.data).map (fun l => String.mk (trimL l))).filter
    (fun t => t ≠ "")

/-- `params.content || params.joke || ''` — the effective content a
client-side executor persists. -/
def effContentJS (params : SaveParams) : JVal :=
  jsOr (jsOr (jsOfOpt params.content) (jsOfOpt params.joke)) (JVal.str "")

/-- Client-side `save_joke` executor.  This function is textually
identical in `agent-bridge.js` (`saveJoke`, both widget variants, and
`saveJokeToFirestore` in the iframe variant) and in `text-chat.js`
(`saveJoke`).  `addDocOutcome` is the outcome of the Firestore
`addDoc` call (new document id on success); the store is threaded
explicitly as the list of documents in the `jokes` collection. -/
def saveJoke (currentUser : Option String) (params : SaveParams)
    (addDocOutcome : Except String String) (jokes : List JokeDoc) :
    SaveResult × List JokeDoc :=
  match currentUser with
  | none => (SaveResult.failure "Not authenticated", jokes)
  | some uid =>
    let content := effContentJS params
    let tags0 := jsOr (jsOfOpt params.tags) (JVal.arr [])
    let tags1 := match tags0 with
      | JVal.str s => JVal.arr (splitTags s)
      | v => v
    if ¬ jsTruthy content then
      (SaveResult.failure "Joke content is required", jokes)
    else
      let tags := match tags1 with
        | JVal.arr l => if l.isEmpty then ["untagged"] else l
        | _ => ["untagged"]
      match addDocOutcome with
      | Except.ok id =>
          (SaveResult.success id, jokes ++ [⟨uid, content, tags⟩])
      | Except.error e =>
          (SaveResult.failure ("Failed to save joke: " ++ e), jokes)

/-- Result object of the server-side tool path: `{toolCallId, message}`
(`functions/index.js`, `saveTool`/`executeToolCall`). -/
structure ToolResult where
  toolCallId : String
  message : String
  deriving DecidableEq, Repr

/-- Server-side `save_joke` tool implementation (`functions/index.js`,
`saveTool`).  Destructures only `content` and `tags` from the
arguments; a thrown validation error is caught by its own
`try`/`catch` and turned into an error message, with no write. -/
def saveTool (args : SaveParams) (userId : String) (toolCallId : String)
    (addDocOutcome : Except String String) (jokes : List JokeDoc) :
    ToolResult × List JokeDoc :=
  let content := jsOfOpt args.content
  let tags := jsOfOpt args.tags
  if ¬ jsTruthy content ∨ ¬ content.isStr then
    (⟨toolCallId, "❌ Error saving joke: Joke content must be a non-empty string"⟩, jokes)
  else if ¬ tags.isArr ∨ (tags.arrD).isEmpty then
    (⟨toolCallId, "❌ Error saving joke: Tags must be a non-empty array"⟩, jokes)
  else
    match addDocOutcome with
    | Except.ok id =>
        (⟨toolCallId,
          "✅ Joke saved successfully to your Bitbinder! (ID: " ++ id ++
          ")\n\nJoke: \"" ++ content.strD ++ "\"\nTags: " ++
          String.intercalate ", " tags.arrD⟩,
         jokes ++ [⟨userId, content, tags.arrD⟩])
    | Except.error e =>
        (⟨toolCallId, "❌ Error saving joke: " ++ e⟩, jokes)

/-- Helper: the client-side tag normalization, factored out of
`saveJoke` for reasoning (provably what `saveJoke` computes). -/
def clientTags (tagsArg : Option JVal) : List String :=
  let tags0 := jsOr (jsOfOpt tagsArg) (JVal.arr [])
  let tags1 := match tags0 with
    | JVal.str s => JVal.arr (splitTags s)
    | v => v
  match tags1 with
  | JVal.arr l => if l.isEmpty then ["untagged"] else l
  | _ => ["untagged"]

/-- `saveJoke`, on an authenticated user, truthy effective content and a
successful write, appends exactly the document with the normalized tags. -/
theorem saveJoke_success_shape (u : String) (params : SaveParams) (id : String)
    (jokes : List JokeDoc) (hc : jsTruthy (effContentJS params) = true) :
    saveJoke (some u) params (Except.ok id) jokes =
      (SaveResult.success id, jokes ++ [⟨u, effContentJS params, clientTags params.tags⟩]) := by
  simp [saveJoke, clientTags, hc]

example :
    (saveJoke (some "u") ⟨some (JVal.str "why"), none, none⟩ (Except.ok "d1") []).2 =
      [⟨"u", JVal.str "why", ["untagged"]⟩] := by decide

example :
    (saveJoke (some "u") ⟨some (JVal.str "why"), none, some (JVal.str " pun, short ")⟩
      (Except.ok "d1") []).2 = [⟨"u", JVal.str "why", ["pun", "short"]⟩] := by decide

example :
    (saveJoke (some "u") ⟨some (JVal.str "why"), none, some (JVal.str "  ")⟩
      (Except.ok "d1") []).2 = [⟨"u", JVal.str "why", ["untagged"]⟩] := by decide

example :
    (saveTool ⟨some (JVal.str "why"), none, some (JVal.arr [])⟩ "u" "t1"
      (Except.ok "d1") []).2 = [] := by decide

example :
    (saveJoke (some "u") ⟨some (JVal.num 1), none, none⟩ (Except.ok "d1") []).2 =
      [⟨"u", JVal.num 1, ["untagged"]⟩] := by decide

example :
    (saveJoke (some "u") ⟨some (JVal.str ""), some (JVal.str "haha"), none⟩
      (Except.ok "d1") []).2 = [⟨"u", JVal.str "haha", ["untagged"]⟩] := by decide

/-- Helper: `saveTool` never persists anything when `tags` is absent, an
empty array, or any string. -/
theorem saveTool_no_write_on_bad_tags (args : SaveParams) (uid tcid : String)
    (o : Except String String) (jokes : List JokeDoc)
    (ht : args.tags = none ∨ args.tags = some (JVal.arr []) ∨
          ∃ w, args.tags = some (JVal.str w)) :
    (saveTool args uid tcid o jokes).2 = jokes := by
  rcases ht with h | h | ⟨w, h⟩ <;>
    simp [saveTool, h, jsOfOpt, JVal.isArr, JVal.arrD, JVal.isStr] <;>
    split <;> simp

/-- C1 counterexample: on the server-side request/response tool path, a
`save_joke` call with non-empty content and an empty tags sequence does
NOT persist a record with tags `["untagged"]` — it persists nothing at
all and reports a tags validation error. -/
theorem saveTool_empty_tags_error :
    saveTool ⟨some (JVal.str "why did"), none, some (JVal.arr [])⟩ "u" "t1"
        (Except.ok "d1") [] =
      (⟨"t1", "❌ Error saving joke: Tags must be a non-empty array"⟩, []) := by
  decide

/-- C1 (amended): for the client-side executors (widget bridge, iframe
voice bridge, duplex text chat — all sharing `saveJoke`), a call with
truthy content whose `tags` argument is absent, an empty sequence, or a
string whose comma-split trimmed non-empty fields are empty (empty or
whitespace-only string) persists the record with tags exactly
`["untagged"]`, and a comma-delimited tags string with non-empty fields
is split into those trimmed fields; the server-side `saveTool` instead
performs no write whenever `tags` is absent, an empty sequence, or any
string (it requires an already non-empty array). -/
theorem tags_untagged_normalization_amended
    (u : String) (params : SaveParams) (id : String) (jokes : List JokeDoc)
    (hc : jsTruthy (effContentJS params) = true) :
    ((params.tags = none ∨ params.tags = some (JVal.arr []) ∨
        (∃ w, params.tags = some (JVal.str w) ∧ splitTags w = [])) →
      saveJoke (some u) params (Except.ok id) jokes =
        (SaveResult.success id,
         jokes ++ [⟨u, effContentJS params, ["untagged"]⟩]))
    ∧ (∀ w, params.tags = some (JVal.str w) → splitTags w ≠ [] →
        saveJoke (some u) params (Except.ok id) jokes =
          (SaveResult.success id,
           jokes ++ [⟨u, effContentJS params, splitTags w⟩]))
    ∧ (∀ (args : SaveParams) (uid tcid : String) (o : Except String String)
          (js : List JokeDoc),
        (args.tags = none ∨ args.tags = some (JVal.arr []) ∨
            ∃ w, args.tags = some (JVal.str w)) →
        (saveTool args uid tcid o js).2 = js) := by
  refine ⟨?_, ?_, ?_⟩
  · rintro (h | h | ⟨w, h, hw⟩)
    · rw [saveJoke_success_shape u params id jokes hc]
      simp [clientTags, h, jsOfOpt, jsOr, jsTruthy]
    · rw [saveJoke_success_shape u params id jokes hc]
      simp [clientTags, h, jsOfOpt, jsOr, jsTruthy]
    · rw [saveJoke_success_shape u params id jokes hc]
      by_cases hw0 : w = ""
      · simp [clientTags, h, hw0, jsOfOpt, jsOr, jsTruthy]
      · simp [clientTags, h, hw, hw0, jsOfOpt, jsOr, jsTruthy]
  · intro w h hw
    rw [saveJoke_success_shape u params id jokes hc]
    have hw0 : w ≠ "" := by
      intro he
      apply hw
      simp [he, splitTags, splitOnCommaL, trimL]
    simp [clientTags, h, jsOfOpt, jsOr, jsTruthy, hw0, hw]
  · intro args uid tcid o js ht
    exact saveTool_no_write_on_bad_tags args uid tcid o js ht

/-- C1 witness. -/
theorem tags_untagged_normalization_amended_witness :
    jsTruthy (effContentJS ⟨some (JVal.str "why did"), none, some (JVal.str " ")⟩) = true ∧
    saveJoke (some "u") ⟨some (JVal.str "why did"), none, some (JVal.str " ")⟩
        (Except.ok "d1") [] =
      (SaveResult.success "d1",
       [⟨"u", JVal.str "why did", ["untagged"]⟩]) ∧
    saveJoke (some "u") ⟨some (JVal.str "why did"), none, some (JVal.str "pun, short")⟩
        (Except.ok "d1") [] =
      (SaveResult.success "d1",
       [⟨"u", JVal.str "why did", ["pun", "short"]⟩]) ∧
    (saveTool ⟨some (JVal.str "why did"), none, none⟩ "u" "t1" (Except.ok "d1") []).2 = [] := by
  refine ⟨by decide, ?_, ?_, ?_⟩
  · have h := (tags_untagged_normalization_amended "u"
      ⟨some (JVal.str "why did"), none, some (JVal.str " ")⟩ "d1" [] (by decide)).1
      (Or.inr (Or.inr ⟨" ", rfl, by decide⟩))
    simpa [effContentJS, jsOfOpt, jsOr, jsTruthy] using h
  · have h := (tags_untagged_normalization_amended "u"
      ⟨some (JVal.str "why did"), none, some (JVal.str "pun, short")⟩ "d1" [] (by decide)).2.1
      "pun, short" rfl (by decide)
    have hs : splitTags "pun, short" = ["pun", "short"] := by decide
    simpa [effContentJS, jsOfOpt, jsOr, jsTruthy, hs] using h
  · exact (tags_untagged_normalization_amended "u"
      ⟨some (JVal.str "x"), none, none⟩ "d" [] (by decide)).2.2
      ⟨some (JVal.str "why did"), none, none⟩ "u" "t1" (Except.ok "d1") [] (Or.inl rfl)

/-- C2 counterexample: a client-side `save_joke` call whose `content` is
a (truthy) non-string is accepted and persisted, not rejected. -/
theorem saveJoke_nonstring_content_persisted :
    saveJoke (some "u") ⟨some (JVal.num 1), none, none⟩ (Except.ok "d1") [] =
      (SaveResult.success "d1", [⟨"u", JVal.num 1, ["untagged"]⟩]) := by
  decide

/-- C2 (amended): the server-side `saveTool` returns a validation error
and performs no write whenever `content` is falsy or not a string; the
client-side `saveJoke` returns an error and performs no write exactly
when the effective content (`content`, else `joke`, else `""`) is
JS-falsy — a truthy non-string content, or an empty `content` with a
truthy `joke` fallback, is accepted and persisted by the client. -/
theorem content_validation_amended :
    (∀ (args : SaveParams) (uid tcid : String) (o : Except String String)
        (jokes : List JokeDoc),
      (jsTruthy (jsOfOpt args.content) = false ∨
        (jsOfOpt args.content).isStr = false) →
      saveTool args uid tcid o jokes =
        (⟨tcid, "❌ Error saving joke: Joke content must be a non-empty string"⟩,
         jokes))
    ∧ (∀ (user : Option String) (params : SaveParams)
          (o : Except String String) (jokes : List JokeDoc),
        jsTruthy (effContentJS params) = false →
        (saveJoke user params o jokes).1.isErr = true ∧
        (saveJoke user params o jokes).2 = jokes) := by
  constructor
  · intro args uid tcid o jokes hc
    rcases hc with h | h <;> simp [saveTool, h]
  · intro user params o jokes hc
    cases user with
    | none => simp [saveJoke, SaveResult.isErr]
    | some u => simp [saveJoke, hc, SaveResult.isErr]

/-- C2 witness. -/
theorem content_validation_amended_witness :
    ((jsTruthy (jsOfOpt (⟨some (JVal.str ""), none, none⟩ : SaveParams).content) = false ∨
        (jsOfOpt (⟨some (JVal.str ""), none, none⟩ : SaveParams).content).isStr = false) ∧
      saveTool ⟨some (JVal.str ""), none, none⟩ "u" "t1" (Except.ok "d1") [] =
        (⟨"t1", "❌ Error saving joke: Joke content must be a non-empty string"⟩, [])) ∧
    (jsTruthy (effContentJS ⟨some (JVal.str ""), none, none⟩) = false ∧
      (saveJoke (some "u") ⟨some (JVal.str ""), none, none⟩ (Except.ok "d1") []).2 = []) := by
  constructor
  · exact ⟨Or.inl (by decide),
      content_validation_amended.1 ⟨some (JVal.str ""), none, none⟩ "u" "t1"
        (Except.ok "d1") [] (Or.inl (by decide))⟩
  · exact ⟨by decide,
      (content_validation_amended.2 (some "u") ⟨some (JVal.str ""), none, none⟩
        (Except.ok "d1") [] (by decide)).2⟩

/-- C9: in every client-side tool executor (they share `saveJoke`), a
`save_joke` invocation with no truthy `content` field but a non-empty
string `joke` field is accepted: given an authenticated user and a
successful write, the persisted record's content equals the `joke`
argument. -/
theorem joke_field_fallback_accepted
    (params : SaveParams) (u s id : String) (jokes : List JokeDoc)
    (hc : jsTruthy (jsOfOpt params.content) = false)
    (hj : params.joke = some (JVal.str s)) (hs : s ≠ "") :
    ∃ tags, saveJoke (some u) params (Except.ok id) jokes =
      (SaveResult.success id, jokes ++ [⟨u, JVal.str s, tags⟩]) := by
  have h1 : jsOr (jsOfOpt params.content) (jsOfOpt params.joke) = jsOfOpt params.joke := by
    simp [jsOr, hc]
  have heff : effContentJS params = JVal.str s := by
    unfold effContentJS
    rw [h1, hj]
    simp [jsOr, jsOfOpt, jsTruthy, hs]
  refine ⟨clientTags params.tags, ?_⟩
  have h := saveJoke_success_shape u params id jokes (by simp [heff, jsTruthy, hs])
  simpa [heff] using h

/-- C9 witness. -/
theorem joke_field_fallback_accepted_witness :
    jsTruthy (jsOfOpt (⟨none, some (JVal.str "haha"), none⟩ : SaveParams).content) = false ∧
    ∃ tags, saveJoke (some "u") ⟨none, some (JVal.str "haha"), none⟩
        (Except.ok "d1") [] =
      (SaveResult.success "d1", [⟨"u", JVal.str "haha", tags⟩]) := by
  refine ⟨by decide, ?_⟩
  have h := joke_field_fallback_accepted ⟨none, some (JVal.str "haha"), none⟩
    "u" "haha" "d1" [] (by decide) rfl (by decide)
  simpa using h

/-! ## Voice bridge transcript state machine

Embeds the transcript handling of `agent-bridge.js`: the `ws-close`
case of `setupIframeBridge` together with `handleVoiceMessage`
(iframe variant), identically `handleTranscriptMessage` plus the
socket `close` listener (WebSocket-intercept variant).  A transcript
entry is a `(role, text)` pair; an in-progress bubble is referenced by
its index; DOM-only details (scrolling, CSS classes, the interim
marker, voice status light) are omitted as they carry no text. -/

/-- Per-page transcript state of the voice bridge: the rendered
entries, the current agent bubble reference and accumulated text
(`currentAgentBubble`/`currentAgentText`), and the current user bubble
reference (`currentUserBubble`). -/
structure BridgeState where
  transcript : List (String × String)
  currentAgentBubble : Option Nat
  currentAgentText : String
  currentUserBubble : Option Nat
  deriving DecidableEq, Repr

/-- The WebSocket-borne events the voice bridge handles (audio frames
and unhandled types are no-ops and omitted).  `wsClose` is the
connection-closed event (`ws-close` / socket `close`). -/
inductive WsEvent where
  | userTranscript (text : String) (isFinal : Bool)
  | agentResponse (text : String)
  | agentResponseCorrection (text : String)
  | interruption
  | turnEnd
  | wsClose
  deriving DecidableEq, Repr

/-- One step of the voice bridge (`handleTranscriptMessage` /
`handleVoiceMessage` dispatch plus the close handler). -/
def voiceBridgeStep (s : BridgeState) : WsEvent → BridgeState
  | WsEvent.userTranscript text isFinal =>
    if text = "" then s
    else if isFinal then
      match s.currentUserBubble with
      | some i => { s with transcript := s.transcript.set i ("user", text), currentUserBubble := none }
      | none => { s with transcript := s.transcript ++ [("user", text)] }
    else
      match s.currentUserBubble with
      | none => { s with transcript := s.transcript ++ [("user", text)], currentUserBubble := some s.transcript.length }
      | some i => { s with transcript := s.transcript.set i ("user", text) }
  | WsEvent.agentResponse text =>
    if text = "" then s
    else
      match s.currentAgentBubble with
      | none => { s with transcript := s.transcript ++ [("assistant", text)], currentAgentBubble := some s.transcript.length, currentAgentText := text }
      | some i => { s with transcript := s.transcript.set i ("assistant", text), currentAgentText := text }
  | WsEvent.agentResponseCorrection text =>
    if text = "" then s
    else
      match s.currentAgentBubble with
      | none => s
      | some i => { s with transcript := s.transcript.set i ("assistant", text), currentAgentText := text }
  | WsEvent.interruption =>
      { s with currentAgentBubble := none, currentAgentText := "" }
  | WsEvent.turnEnd =>
      { s with currentAgentBubble := none, currentAgentText := "", currentUserBubble := none }
  | WsEvent.wsClose =>
      { s with transcript := s.transcript ++ [("system", "Voice ended")], currentAgentBubble := none, currentAgentText := "", currentUserBubble := none }

/-- Helper: overwriting the freshly appended last element of a list. -/
theorem set_append_singleton (l : List (String × String)) (a b : String × String) :
    (l ++ [a]).set l.length b = l ++ [b] := by
  induction l with
  | nil => rfl
  | cons x xs ih => simp [List.set, ih]

/-- Helper: the payload of the last text-bearing (non-empty) event in a
run of partial payloads, with a default when none is text-bearing. -/
def lastNonEmptyD (d : String) : List String → String
  | [] => d
  | t :: ts => if t = "" then lastNonEmptyD d ts else lastNonEmptyD t ts

theorem voiceBridgeStep_agent_empty (s : BridgeState) :
    voiceBridgeStep s (WsEvent.agentResponse "") = s := by
  simp [voiceBridgeStep]

theorem voiceBridgeStep_agent_open (s : BridgeState) (t : String)
    (ht : t ≠ "") (h : s.currentAgentBubble = none) :
    voiceBridgeStep s (WsEvent.agentResponse t) =
      { s with transcript := s.transcript ++ [("assistant", t)], currentAgentBubble := some s.transcript.length, currentAgentText := t } := by
  simp [voiceBridgeStep, ht, h]

theorem voiceBridgeStep_agent_update (s : BridgeState) (t : String) (i : Nat)
    (ht : t ≠ "") (h : s.currentAgentBubble = some i) :
    voiceBridgeStep s (WsEvent.agentResponse t) =
      { s with transcript := s.transcript.set i ("assistant", t), currentAgentText := t } := by
  simp [voiceBridgeStep, ht, h]

/-- Helper (streaming phase): once an agent bubble is open at the end
of the transcript, any further `agent_response` payloads rewrite it in
place, leaving exactly that one entry carrying the last non-empty
payload. -/
theorem voiceBridge_streaming_phase (texts : List String) :
    ∀ (base : List (String × String)) (cur : String) (abt : String)
      (ub : Option Nat),
    (texts.map WsEvent.agentResponse).foldl voiceBridgeStep
        ⟨base ++ [("assistant", cur)], some base.length, abt, ub⟩ =
      ⟨base ++ [("assistant", lastNonEmptyD cur texts)], some base.length,
       lastNonEmptyD abt texts, ub⟩ := by
  induction texts with
  | nil => intro base cur abt ub; simp [lastNonEmptyD]
  | cons t ts ih =>
    intro base cur abt ub
    by_cases ht : t = ""
    · subst ht
      rw [List.map_cons, List.foldl_cons, voiceBridgeStep_agent_empty]
      simpa [lastNonEmptyD] using ih base cur abt ub
    · rw [List.map_cons, List.foldl_cons,
        voiceBridgeStep_agent_update _ t base.length ht rfl]
      simp only [set_append_singleton]
      simpa [lastNonEmptyD, ht] using ih base t t ub

/-- C3: for any run of partial agent-text events for one turn (each
carrying the full current hypothesis, applied last-write-wins on the
same bubble), followed by one turn-boundary event, started with the
assistant lane idle, the transcript gains exactly one assistant entry,
its final text is the payload of the last text-bearing event, and the
lane state is reset (no intermediate partial text retained). -/
theorem partial_stream_single_assistant_entry
    (s : BridgeState) (texts : List String)
    (hidle : s.currentAgentBubble = none)
    (hsome : ∃ t ∈ texts, t ≠ "") :
    (texts.map WsEvent.agentResponse ++ [WsEvent.turnEnd]).foldl
        voiceBridgeStep s =
      ⟨s.transcript ++ [("assistant", lastNonEmptyD "" texts)], none, "",
       none⟩ := by
  induction texts with
  | nil => simp at hsome
  | cons t ts ih =>
    by_cases ht : t = ""
    · subst ht
      have hs' : ∃ t ∈ ts, t ≠ "" := by
        rcases hsome with ⟨x, hx, hxne⟩
        rcases List.mem_cons.mp hx with hx1 | hx1
        · exact absurd hx1 hxne
        · exact ⟨x, hx1, hxne⟩
      rw [List.map_cons, List.cons_append, List.foldl_cons,
        voiceBridgeStep_agent_empty]
      simpa [lastNonEmptyD] using ih hs'
    · rw [List.map_cons, List.cons_append, List.foldl_cons,
        voiceBridgeStep_agent_open s t ht hidle, List.foldl_append,
        voiceBridge_streaming_phase ts s.transcript t t s.currentUserBubble]
      simp [voiceBridgeStep, lastNonEmptyD, ht]

/-- C3 witness. -/
theorem partial_stream_single_assistant_entry_witness :
    (∃ t ∈ ["He", "Hel", "Hello"], t ≠ "") ∧
    ((["He", "Hel", "Hello"].map WsEvent.agentResponse ++
        [WsEvent.turnEnd]).foldl voiceBridgeStep ⟨[], none, "", none⟩ =
      ⟨[("assistant", "Hello")], none, "", none⟩) := by
  refine ⟨⟨"He", by simp⟩, ?_⟩
  have h := partial_stream_single_assistant_entry ⟨[], none, "", none⟩
    ["He", "Hel", "Hello"] rfl ⟨"He", by simp⟩
  simpa [lastNonEmptyD] using h

/-! ## Duplex text chat (`text-chat.js`)

State machine of `handleWSMessage`, the `ws.onclose` handler,
`finalizeResponse`, and the tool-call path (`handleToolCall` +
`saveJoke`).  `ping`/`audio`/`user_transcript`/tentative events are
no-ops for the modeled state and omitted; the 2-second auto-finalize
and the 30-second no-response timer are timer-driven and appear as the
explicit `interruption`/finalize transitions they invoke, not as part
of the close handler. -/

/-- Module state of `text-chat.js` relevant to the transcript and
connection: rendered entries, `conversationId`, `connected`,
`agentResponding`, the current response bubble reference and
accumulated text, and whether the input controls are enabled. -/
structure TCState where
  transcript : List (String × String)
  conversationId : Option String
  connected : Bool
  agentResponding : Bool
  currentResponseEl : Option Nat
  currentResponseText : String
  inputEnabled : Bool
  deriving DecidableEq, Repr

/-- The duplex events affecting the modeled state. -/
inductive TCEvent where
  | initiationMetadata (convId : String)
  | agentResponse (text : String)
  | agentResponseCorrection (text : String)
  | interruption
  | socketClose
  deriving DecidableEq, Repr

/-- `finalizeResponse()` in `text-chat.js`. -/
def finalizeResponse (s : TCState) : TCState :=
  { s with currentResponseEl := none, currentResponseText := "", agentResponding := false, inputEnabled := true }

/-- One step of the duplex text chat (`handleWSMessage` dispatch and
the `ws.onclose` handler). -/
def textChatStep (s : TCState) : TCEvent → TCState
  | TCEvent.initiationMetadata convId => { s with conversationId := some convId }
  | TCEvent.agentResponse text =>
    if text = "" then s
    else
      match s.currentResponseEl with
      | none => { s with transcript := s.transcript ++ [("assistant", text)], currentResponseEl := some s.transcript.length, currentResponseText := text }
      | some i => { s with transcript := s.transcript.set i ("assistant", text), currentResponseText := text }
  | TCEvent.agentResponseCorrection text =>
    if text = "" then s
    else
      match s.currentResponseEl with
      | none => s
      | some i => { s with transcript := s.transcript.set i ("assistant", text), currentResponseText := text }
  | TCEvent.interruption => finalizeResponse s
  | TCEvent.socketClose =>
    let s1 := { s with connected := false, conversationId := none }
    if s1.agentResponding then { s1 with agentResponding := false, inputEnabled := true } else s1

/-- C5 counterexample: in the duplex text chat, a connection-closed
event arriving while the assistant lane is streaming does NOT clear the
current bubble reference or the accumulated text — the lane is left
mid-turn, so a subsequent response reuses the stale bubble. -/
theorem textchat_close_keeps_response_state :
    ([TCEvent.agentResponse "Hello", TCEvent.socketClose].foldl textChatStep
        ⟨[], none, true, true, none, "", false⟩).currentResponseEl = some 0 ∧
    ([TCEvent.agentResponse "Hello", TCEvent.socketClose].foldl textChatStep
        ⟨[], none, true, true, none, "", false⟩).currentResponseText = "Hello" := by
  decide

/-- C5 (amended): a connection-closed event in the iframe voice bridge
force-finalizes by clearing both lanes' bubble references and the
accumulated agent text while retaining every rendered entry (only a
system notice is appended), so a subsequent event starts a new turn;
the duplex text chat's close handler instead only drops the connection
and conversation id, clears the responding flag and re-enables input
(when a response was pending), leaving the assistant lane's current
bubble reference and accumulated text unchanged — that lane is only
reset by the finalize paths, not by the close event. -/
theorem connection_close_reset_amended :
    (∀ s : BridgeState, voiceBridgeStep s WsEvent.wsClose =
      { s with transcript := s.transcript ++ [("system", "Voice ended")], currentAgentBubble := none, currentAgentText := "", currentUserBubble := none })
    ∧ (∀ s : TCState,
        (textChatStep s TCEvent.socketClose).currentResponseEl = s.currentResponseEl ∧
        (textChatStep s TCEvent.socketClose).currentResponseText = s.currentResponseText ∧
        (textChatStep s TCEvent.socketClose).transcript = s.transcript ∧
        (textChatStep s TCEvent.socketClose).connected = false ∧
        (textChatStep s TCEvent.socketClose).conversationId = none ∧
        (textChatStep s TCEvent.socketClose).agentResponding = false ∧
        (textChatStep s TCEvent.socketClose).inputEnabled =
          (s.agentResponding || s.inputEnabled)) := by
  constructor
  · intro s; rfl
  · intro s
    cases h : s.agentResponding <;>
      simp [textChatStep, h]

/-- A `client_tool_result` frame sent back over the duplex socket (the
source serializes `result` with `JSON.stringify`; it is kept structured
here). -/
structure ResultFrame where
  tool_call_id : String
  result : SaveResult
  is_error : Bool
  deriving DecidableEq, Repr

/-- An incoming `client_tool_call` frame. -/
structure ToolCallFrame where
  tool_name : String
  tool_call_id : String
  parameters : SaveParams
  deriving DecidableEq, Repr

/-- The side-effect state touched by the duplex tool path: the `jokes`
store, the frames sent on the socket, and the tool-lane chat messages. -/
structure DuplexToolState where
  jokes : List JokeDoc
  sentFrames : List ResultFrame
  toolMessages : List String
  deriving DecidableEq, Repr

/-- `handleToolCall` in `text-chat.js`: execute the tool, send exactly
one `client_tool_result` frame echoing `tool_call_id` (when the socket
is open), and append a tool-lane message. -/
def handleToolCallDuplex (call : ToolCallFrame) (currentUser : Option String)
    (wsOpen : Bool) (addDocOutcome : Except String String)
    (st : DuplexToolState) : DuplexToolState :=
  let rj : SaveResult × List JokeDoc :=
    if call.tool_name = "save_joke" then
      saveJoke currentUser call.parameters addDocOutcome st.jokes
    else (SaveResult.failure ("Unknown tool: " ++ call.tool_name), st.jokes)
  let isError := rj.1.isErr
  let sent := if wsOpen then st.sentFrames ++ [⟨call.tool_call_id, rj.1, isError⟩] else st.sentFrames
  let msgs := st.toolMessages ++
    [if isError then
       "❌ " ++ (match rj.1 with
         | SaveResult.failure m => if m = "" then "Tool call failed" else m
         | SaveResult.success _ => "Tool call failed")
     else "✅ Joke saved to Bitbinder!"]
  ⟨rj.2, sent, msgs⟩

/-- C8: every tool-call frame handled on the (open) duplex transport is
answered by exactly one result frame whose correlation id equals the
request's `tool_call_id` verbatim; and in the concrete scenario —
`save_joke` with tags given as the string "pun, short" — the persisted
tags are `["pun", "short"]` and the result frame reports success with
the new document id. -/
theorem duplex_tool_result_correlation :
    (∀ (call : ToolCallFrame) (user : Option String)
        (o : Except String String) (st : DuplexToolState),
      ∃ r e, (handleToolCallDuplex call user true o st).sentFrames =
        st.sentFrames ++ [⟨call.tool_call_id, r, e⟩])
    ∧ (handleToolCallDuplex
        ⟨"save_joke", "t1", ⟨some (JVal.str "Why did..."), none, some (JVal.str "pun, short")⟩⟩
        (some "u") true (Except.ok "doc1") ⟨[], [], []⟩ =
      ⟨[⟨"u", JVal.str "Why did...", ["pun", "short"]⟩],
       [⟨"t1", SaveResult.success "doc1", false⟩],
       ["✅ Joke saved to Bitbinder!"]⟩) := by
  constructor
  · intro call user o st
    exact ⟨_, _, rfl⟩
  · decide

/-! ## Request/response text chat (unnamed `part_002`)

`sendMessage` calls the `chatWithAgent` callable with
`{message, conversationId: currentConversationId || null}` and renders
the outcome; the ephemeral loading indicator is appended and removed
within the same call and therefore does not appear in the final
transcript. -/

/-- `s.trim()` (JS) as a total string function. -/
def trimJS (s : String) : String :=
  String.mk (trimL s.data)

/-- The successful payload of the `chatWithAgent` callable. -/
structure ChatOk where
  conversationId : String
  finalResponse : String
  deriving DecidableEq, Repr

/-- Module state of the request/response text chat. -/
structure RRState where
  transcript : List (String × String)
  currentConversationId : Option String
  deriving DecidableEq, Repr

/-- The request body actually sent to the callable. -/
structure SentRequest where
  message : String
  conversationId : Option String
  deriving DecidableEq, Repr

/-- `currentConversationId || null`. -/
def jsOrNullStr : Option String → Option String
  | none => none
  | some s => if s = "" then none else some s

/-- `sendMessage` in the request/response text chat: returns the new
state and the request that was sent (`none` when the send was rejected
before calling out). -/
def sendMessageRR (s : RRState) (inputText : String)
    (currentUser : Option String) (callResult : Except String ChatOk) :
    RRState × Option SentRequest :=
  let text := trimJS inputText
  if text = "" then (s, none)
  else
    match currentUser with
    | none =>
      ({ s with transcript := s.transcript ++ [("system", "⚠️ Please log in to chat.")] }, none)
    | some _ =>
      let s1 := { s with transcript := s.transcript ++ [("user", text)] }
      let req : SentRequest := ⟨text, jsOrNullStr s.currentConversationId⟩
      match callResult with
      | Except.ok r =>
        let s2 := if r.conversationId ≠ "" then { s1 with currentConversationId := some r.conversationId } else s1
        ({ s2 with transcript := s2.transcript ++ [("assistant", if r.finalResponse ≠ "" then r.finalResponse else "No response from agent.")] }, some req)
      | Except.error e =>
        ({ s1 with transcript := s1.transcript ++ [("system", "❌ " ++ (if e ≠ "" then e else "Failed to send message. Please try again."))] }, some req)

/-- Helper: the request a non-rejected send puts on the wire. -/
theorem sendMessageRR_sent (s : RRState) (t u : String)
    (res : Except String ChatOk) (ht : trimJS t ≠ "") :
    (sendMessageRR s t (some u) res).2 =
      some ⟨trimJS t, jsOrNullStr s.currentConversationId⟩ := by
  cases res <;> simp [sendMessageRR, ht]

/-- C6 counterexample: a first send whose call succeeds with
`{conversationId: "", finalResponse: ""}` renders the placeholder text
instead of the (empty) `finalResponse`, and stores no conversation id,
so the next send still passes `null` rather than the returned value. -/
theorem rr_empty_success_fields_divergence :
    (sendMessageRR ⟨[], none⟩ "Tell me a knock-knock joke" (some "u")
        (Except.ok ⟨"", ""⟩)).1.transcript =
      [("user", "Tell me a knock-knock joke"),
       ("assistant", "No response from agent.")] ∧
    ("No response from agent." ≠ "") ∧
    (sendMessageRR ⟨[], none⟩ "Tell me a knock-knock joke" (some "u")
        (Except.ok ⟨"", ""⟩)).1.currentConversationId = none := by
  refine ⟨by decide, by decide, by decide⟩

/-- C6 (amended): a send with `conversationId = null` that succeeds
with `{conversationId: c, finalResponse: r}`, where `c` and `r` are
non-empty, appends exactly one user turn (the trimmed sent text) and
one assistant turn (text `r`), with no partial phase, and every
subsequent send in the session passes `conversationId = c`; when `r`
is empty the assistant turn shows the placeholder
"No response from agent." and an empty `c` is not stored; on failure,
no assistant entry is emitted (the user turn is followed only by a
system-lane error message). -/
theorem rr_send_transcript_amended
    (s : RRState) (inputText : String) (u : String) (c r : String)
    (htext : trimJS inputText ≠ "") (hconv : s.currentConversationId = none)
    (hc : c ≠ "") (hr : r ≠ "") :
    (sendMessageRR s inputText (some u) (Except.ok ⟨c, r⟩)).2 =
      some ⟨trimJS inputText, none⟩ ∧
    (sendMessageRR s inputText (some u) (Except.ok ⟨c, r⟩)).1 =
      ⟨s.transcript ++ [("user", trimJS inputText), ("assistant", r)], some c⟩ ∧
    (∀ (t2 : String) (u2 : String) (res2 : Except String ChatOk),
      trimJS t2 ≠ "" →
      (sendMessageRR (sendMessageRR s inputText (some u)
          (Except.ok ⟨c, r⟩)).1 t2 (some u2) res2).2 = some ⟨trimJS t2, some c⟩) ∧
    (∀ e : String,
      (sendMessageRR s inputText (some u) (Except.error e)).1.transcript =
        s.transcript ++ [("user", trimJS inputText),
          ("system", "❌ " ++ (if e ≠ "" then e else "Failed to send message. Please try again."))]) := by
  have hstate : (sendMessageRR s inputText (some u) (Except.ok ⟨c, r⟩)).1 =
      ⟨s.transcript ++ [("user", trimJS inputText), ("assistant", r)], some c⟩ := by
    simp [sendMessageRR, htext, hc, hr]
  refine ⟨?_, hstate, ?_, ?_⟩
  · rw [sendMessageRR_sent _ inputText u _ htext, hconv]
    rfl
  · intro t2 u2 res2 ht2
    rw [sendMessageRR_sent _ t2 u2 res2 ht2, hstate]
    simp [jsOrNullStr, hc]
  · intro e
    simp [sendMessageRR, htext]

/-- C6 witness. -/
theorem rr_send_transcript_amended_witness :
    (trimJS "Tell me a knock-knock joke" ≠ "") ∧
    ((sendMessageRR ⟨[], none⟩ "Tell me a knock-knock joke" (some "u")
        (Except.ok ⟨"c1", "Knock knock!"⟩)).1 =
      ⟨[("user", "Tell me a knock-knock joke"),
        ("assistant", "Knock knock!")], some "c1"⟩) ∧
    ((sendMessageRR (sendMessageRR ⟨[], none⟩ "Tell me a knock-knock joke"
          (some "u") (Except.ok ⟨"c1", "Knock knock!"⟩)).1
        "Another" (some "u") (Except.ok ⟨"c1", "Sure!"⟩)).2 =
      some ⟨"Another", some "c1"⟩) := by
  have h := rr_send_transcript_amended ⟨[], none⟩ "Tell me a knock-knock joke"
    "u" "c1" "Knock knock!" (by decide) rfl (by decide) (by decide)
  refine ⟨by decide, ?_, ?_⟩
  · have := h.2.1
    simpa [trimJS, trimL, isWS] using this
  · have h2 := h.2.2.1 "Another" "u" (Except.ok ⟨"c1", "Sure!"⟩) (by decide)
    simpa [trimJS, trimL, isWS] using h2

/-! ## `chatWithAgent` callable (`functions/index.js`)

The callable's control flow up to and including conversation
resolution is embedded directly; the remainder (history fetch, jokes
fetch, agent-API loop with server-side tool calls, batch commit) can
only fail with generic (non-`HttpsError`) exceptions, which the outer
`catch` wraps as `internal` — it is abstracted as a single fallible
outcome `rest` carrying the `finalResponse` on success.  The
`conversations` collection is the association list of
`(documentId, ownerUserId)`. -/

/-- The `HttpsError` codes this function raises. -/
inductive ErrCode where
  | unauthenticated
  | invalidArgument
  | permissionDenied
  | internal
  deriving DecidableEq, Repr

/-- An `HttpsError` as surfaced to the caller: `{code, message}`. -/
structure HttpsErr where
  code : ErrCode
  message : String
  deriving DecidableEq, Repr

/-- The callable's input `data`: `message` is an arbitrary JS value
(validated inside), `conversationId` a string or null/absent. -/
structure ChatInput where
  message : Option JVal
  conversationId : Option String
  deriving DecidableEq, Repr

/-- `!message || typeof message !== 'string'` is false, i.e. the
message passes validation. -/
def validMessage (m : Option JVal) : Bool :=
  jsTruthy (jsOfOpt m) && (jsOfOpt m).isStr

/-- `exports.chatWithAgent`: authentication check, message validation,
conversation creation/ownership check, then the agent interaction;
`HttpsError`s propagate as-is, any other failure is wrapped as
`internal` by the outer `catch`. -/
def chatWithAgent (authUid : Option String) (data : ChatInput)
    (conversations : List (String × String))
    (createConv : Except String String) (rest : Except String String) :
    Except HttpsErr ChatOk :=
  match authUid with
  | none => Except.error ⟨ErrCode.unauthenticated, "User must be authenticated"⟩
  | some userId =>
    if ¬ validMessage data.message then
      Except.error ⟨ErrCode.invalidArgument, "Message must be a non-empty string"⟩
    else
      let convOutcome : Except HttpsErr String :=
        if jsOrNullStr data.conversationId = none then
          match createConv with
          | Except.ok newId => Except.ok newId
          | Except.error e =>
              Except.error ⟨ErrCode.internal, "Internal server error: " ++ e⟩
        else
          match data.conversationId with
          | some c =>
            if conversations.lookup c = some userId then Except.ok c
            else Except.error ⟨ErrCode.permissionDenied, "User does not own this conversation"⟩
          | none => Except.error ⟨ErrCode.internal, "Internal server error: unreachable"⟩
      match convOutcome with
      | Except.error err => Except.error err
      | Except.ok actualConversationId =>
        match rest with
        | Except.ok finalResponse => Except.ok ⟨actualConversationId, finalResponse⟩
        | Except.error e =>
            Except.error ⟨ErrCode.internal, "Internal server error: " ++ e⟩

/-- C7: the `chatWithAgent` callable fails `unauthenticated` for any
input when the caller is not authenticated; fails `invalid-argument`
when `message` is missing, empty, or not a string; fails
`permission-denied` when a supplied (truthy) `conversationId` names a
conversation that does not exist or is owned by a different user;
wraps any other failure (conversation creation or the agent/store
interaction) as `internal`; and on success returns
`{conversationId, finalResponse}`. -/
theorem chatWithAgent_error_taxonomy
    (authUid : Option String) (data : ChatInput)
    (conversations : List (String × String))
    (createConv rest : Except String String) :
    (authUid = none →
      chatWithAgent authUid data conversations createConv rest =
        Except.error ⟨ErrCode.unauthenticated, "User must be authenticated"⟩)
    ∧ (∀ u, authUid = some u → validMessage data.message = false →
        chatWithAgent authUid data conversations createConv rest =
          Except.error ⟨ErrCode.invalidArgument, "Message must be a non-empty string"⟩)
    ∧ (∀ u c, authUid = some u → validMessage data.message = true →
        data.conversationId = some c → c ≠ "" →
        conversations.lookup c ≠ some u →
        chatWithAgent authUid data conversations createConv rest =
          Except.error ⟨ErrCode.permissionDenied, "User does not own this conversation"⟩)
    ∧ (∀ u e, authUid = some u → validMessage data.message = true →
        jsOrNullStr data.conversationId = none → createConv = Except.error e →
        chatWithAgent authUid data conversations createConv rest =
          Except.error ⟨ErrCode.internal, "Internal server error: " ++ e⟩)
    ∧ (∀ u c e, authUid = some u → validMessage data.message = true →
        data.conversationId = some c → c ≠ "" →
        conversations.lookup c = some u → rest = Except.error e →
        chatWithAgent authUid data conversations createConv rest =
          Except.error ⟨ErrCode.internal, "Internal server error: " ++ e⟩)
    ∧ (∀ u newId fr, authUid = some u → validMessage data.message = true →
        jsOrNullStr data.conversationId = none → createConv = Except.ok newId →
        rest = Except.ok fr →
        chatWithAgent authUid data conversations createConv rest =
          Except.ok ⟨newId, fr⟩)
    ∧ (∀ u c fr, authUid = some u → validMessage data.message = true →
        data.conversationId = some c → c ≠ "" →
        conversations.lookup c = some u → rest = Except.ok fr →
        chatWithAgent authUid data conversations createConv rest =
          Except.ok ⟨c, fr⟩) := by
  refine ⟨?_, ?_, ?_, ?_, ?_, ?_, ?_⟩
  · intro h; subst h; rfl
  · intro u hu hm; subst hu; simp [chatWithAgent, hm]
  · intro u c hu hm hcid hcne hown
    subst hu
    simp [chatWithAgent, hm, hcid, jsOrNullStr, hcne, hown]
  · intro u e hu hm hnull hcc
    subst hu
    simp [chatWithAgent, hm, hnull, hcc]
  · intro u c e hu hm hcid hcne hown hrest
    subst hu
    simp [chatWithAgent, hm, hcid, jsOrNullStr, hcne, hown, hrest]
  · intro u newId fr hu hm hnull hcc hrest
    subst hu
    simp [chatWithAgent, hm, hnull, hcc, hrest]
  · intro u c fr hu hm hcid hcne hown hrest
    subst hu
    simp [chatWithAgent, hm, hcid, jsOrNullStr, hcne, hown, hrest]

/-- C7 witness. -/
theorem chatWithAgent_error_taxonomy_witness :
    (chatWithAgent none ⟨some (JVal.str "hi"), none⟩ [] (Except.ok "c1")
        (Except.ok "yo") =
      Except.error ⟨ErrCode.unauthenticated, "User must be authenticated"⟩) ∧
    (chatWithAgent (some "u") ⟨some (JVal.str ""), none⟩ [] (Except.ok "c1")
        (Except.ok "yo") =
      Except.error ⟨ErrCode.invalidArgument, "Message must be a non-empty string"⟩) ∧
    (chatWithAgent (some "u") ⟨some (JVal.str "hi"), some "cX"⟩
        [("cX", "other")] (Except.ok "c1") (Except.ok "yo") =
      Except.error ⟨ErrCode.permissionDenied, "User does not own this conversation"⟩) ∧
    (chatWithAgent (some "u") ⟨some (JVal.str "hi"), none⟩ [] (Except.error "mkfail")
        (Except.ok "yo") =
      Except.error ⟨ErrCode.internal, "Internal server error: mkfail"⟩) ∧
    (chatWithAgent (some "u") ⟨some (JVal.str "hi"), some "cX"⟩ [("cX", "u")]
        (Except.ok "c1") (Except.error "boom") =
      Except.error ⟨ErrCode.internal, "Internal server error: boom"⟩) ∧
    (chatWithAgent (some "u") ⟨some (JVal.str "hi"), none⟩ [] (Except.ok "c1")
        (Except.ok "yo") = Except.ok ⟨"c1", "yo"⟩) ∧
    (chatWithAgent (some "u") ⟨some (JVal.str "hi"), some "cX"⟩ [("cX", "u")]
        (Except.ok "c1") (Except.ok "yo") = Except.ok ⟨"cX", "yo"⟩) := by
  refine ⟨?_, ?_, ?_, ?_, ?_, ?_, ?_⟩
  · exact (chatWithAgent_error_taxonomy none ⟨some (JVal.str "hi"), none⟩ []
      (Except.ok "c1") (Except.ok "yo")).1 rfl
  · exact (chatWithAgent_error_taxonomy (some "u") ⟨some (JVal.str ""), none⟩ []
      (Except.ok "c1") (Except.ok "yo")).2.1 "u" rfl (by decide)
  · exact (chatWithAgent_error_taxonomy (some "u") ⟨some (JVal.str "hi"), some "cX"⟩
      [("cX", "other")] (Except.ok "c1") (Except.ok "yo")).2.2.1 "u" "cX" rfl
      (by decide) rfl (by decide) (by decide)
  · exact (chatWithAgent_error_taxonomy (some "u") ⟨some (JVal.str "hi"), none⟩ []
      (Except.error "mkfail") (Except.ok "yo")).2.2.2.1 "u" "mkfail" rfl (by decide)
      rfl rfl
  · exact (chatWithAgent_error_taxonomy (some "u") ⟨some (JVal.str "hi"), some "cX"⟩
      [("cX", "u")] (Except.ok "c1") (Except.error "boom")).2.2.2.2.1 "u" "cX" "boom"
      rfl (by decide) rfl (by decide) (by decide) rfl
  · exact (chatWithAgent_error_taxonomy (some "u") ⟨some (JVal.str "hi"), none⟩ []
      (Except.ok "c1") (Except.ok "yo")).2.2.2.2.2.1 "u" "c1" "yo" rfl (by decide)
      rfl rfl rfl
  · exact (chatWithAgent_error_taxonomy (some "u") ⟨some (JVal.str "hi"), some "cX"⟩
      [("cX", "u")] (Except.ok "c1") (Except.ok "yo")).2.2.2.2.2.2 "u" "cX" "yo" rfl
      (by decide) rfl (by decide) (by decide) rfl

/-! ## Widget tool registration (`agent-bridge.js`, `wireWidget`) -/

/-- Modelled from the spec: the ElevenLabs `<elevenlabs-convai>` widget
is a third-party component whose code is not in the repository; per the
spec it exposes a programmatic tool-registration hook keyed by tool
name (re-registration replaces the handler under that name) and
dispatches each logical client tool call to the single handler
registered under the call's tool name, invoking it exactly once.  The
registry is kept as the list of registered tool names — every
registration in `wireWidget` installs the same `save_joke` handler
(`handleToolCall`), so only the names matter. -/
def registerClientTool (registry : List String) (toolName : String) : List String :=
  if toolName ∈ registry then registry else registry ++ [toolName]

/-- `handleToolCall` in `agent-bridge.js`: the handler every
registration path installs for `save_joke` (also the body of the
`elevenlabs-convai:call` event listener). -/
def handleToolCall (toolName : String) (params : SaveParams)
    (currentUser : Option String) (addDocOutcome : Except String String)
    (jokes : List JokeDoc) : SaveResult × List JokeDoc :=
  if toolName = "save_joke" then saveJoke currentUser params addDocOutcome jokes
  else (SaveResult.failure ("Unknown tool: " ++ toolName), jokes)

/-- The registration attempts made by `wireWidget`: the immediate
`registerTools()` call, each `elevenlabs-convai:ready` listener firing,
and each iteration of the bounded fallback poll all invoke
`registerTools()`, which succeeds (performing
`registerClientTool('save_joke', handler)`) exactly when the widget's
API is available at that moment — encoded as the `Bool` list
`attempts`. -/
def wireWidgetRegistrations (attempts : List Bool) : List String :=
  attempts.foldl
    (fun registry ready =>
      if ready then registerClientTool registry "save_joke" else registry)
    []

/-- Modelled from the spec: delivery of one logical client tool call
through the widget's client-tool mechanism — the widget invokes the
handler registered under the tool's name exactly once (or does nothing
if none is registered). -/
def deliverClientToolCall (registry : List String) (params : SaveParams)
    (currentUser : Option String) (addDocOutcome : Except String String)
    (jokes : List JokeDoc) : SaveResult × List JokeDoc :=
  if "save_joke" ∈ registry then
    handleToolCall "save_joke" params currentUser addDocOutcome jokes
  else (SaveResult.failure "save_joke not registered", jokes)

/-- Helper: any registration sequence leaves the registry either empty
or exactly `["save_joke"]`. -/
theorem wireWidgetRegistrations_cases (attempts : List Bool) :
    wireWidgetRegistrations attempts = [] ∨
    wireWidgetRegistrations attempts = ["save_joke"] := by
  unfold wireWidgetRegistrations
  have main : ∀ (l : List Bool) (registry : List String),
      registry = [] ∨ registry = ["save_joke"] →
      l.foldl (fun registry ready =>
        if ready then registerClientTool registry "save_joke" else registry)
        registry = [] ∨
      l.foldl (fun registry ready =>
        if ready then registerClientTool registry "save_joke" else registry)
        registry = ["save_joke"] := by
    intro l
    induction l with
    | nil => intro registry h; simpa using h
    | cons b bs ih =>
      intro registry h
      rcases h with h | h <;> subst h <;> cases b <;>
        simp [registerClientTool] <;> apply ih <;> simp
  exact main attempts [] (Or.inl rfl)

/-- Helper: one successful attempt suffices to register. -/
theorem wireWidgetRegistrations_mem (attempts : List Bool)
    (h : true ∈ attempts) :
    wireWidgetRegistrations attempts = ["save_joke"] := by
  unfold wireWidgetRegistrations
  have main : ∀ (l : List Bool) (registry : List String),
      (registry = [] ∨ registry = ["save_joke"]) →
      (true ∈ l ∨ registry = ["save_joke"]) →
      l.foldl (fun registry ready =>
        if ready then registerClientTool registry "save_joke" else registry)
        registry = ["save_joke"] := by
    intro l
    induction l with
    | nil =>
      intro registry hr ht
      rcases ht with ht | ht
      · simp at ht
      · simpa using ht
    | cons b bs ih =>
      intro registry hr ht
      cases b
      · rcases ht with ht | ht
        · rcases List.mem_cons.mp ht with h1 | h1
          · exact absurd h1.symm (by simp)
          · rw [List.foldl_cons]
            exact ih registry hr (Or.inl h1)
        · rw [List.foldl_cons]
          exact ih registry hr (Or.inr ht)
      · rw [List.foldl_cons]
        rcases hr with h1 | h1 <;> subst h1 <;>
          exact ih _ (by simp [registerClientTool]) (Or.inr (by simp [registerClientTool]))
  exact main attempts [] (Or.inl rfl) (Or.inl h)

/-- Helper: one call of the client executor creates at most one
document. -/
theorem saveJoke_at_most_one_create (currentUser : Option String)
    (params : SaveParams) (o : Except String String) (jokes : List JokeDoc) :
    (saveJoke currentUser params o jokes).2.length ≤ jokes.length + 1 := by
  unfold saveJoke
  rcases currentUser with _ | u
  · simp
  · dsimp only
    split
    · simp
    · split <;> simp

/-- C4: however many times the `save_joke` handler gets registered —
any combination of the immediate `registerClientTool` attempt, the
readiness-event listener and the bounded fallback poll — the registry
holds at most one entry for `save_joke`, delivery of one logical tool
call executes the (single) registered handler exactly once, and hence
performs at most one Firestore create; when at least one attempt
succeeded, delivery is exactly one `handleToolCall` execution. -/
theorem double_registration_single_execution
    (attempts : List Bool) (params : SaveParams) (user : Option String)
    (o : Except String String) (jokes : List JokeDoc) :
    (wireWidgetRegistrations attempts).count "save_joke" ≤ 1 ∧
    (deliverClientToolCall (wireWidgetRegistrations attempts) params user o
        jokes).2.length ≤ jokes.length + 1 ∧
    (true ∈ attempts →
      deliverClientToolCall (wireWidgetRegistrations attempts) params user o
          jokes =
        handleToolCall "save_joke" params user o jokes) := by
  refine ⟨?_, ?_, ?_⟩
  · rcases wireWidgetRegistrations_cases attempts with h | h <;> simp [h]
  · rcases wireWidgetRegistrations_cases attempts with h | h <;>
      simp only [h, deliverClientToolCall, handleToolCall]
    · simp
    · simpa using saveJoke_at_most_one_create user params o jokes
  · intro h
    rw [wireWidgetRegistrations_mem attempts h]
    simp [deliverClientToolCall]

/-- C4 witness. -/
theorem double_registration_single_execution_witness :
    (true ∈ [false, true, true]) ∧
    deliverClientToolCall (wireWidgetRegistrations [false, true, true])
        ⟨some (JVal.str "why"), none, none⟩ (some "u") (Except.ok "d1") [] =
      handleToolCall "save_joke" ⟨some (JVal.str "why"), none, none⟩
        (some "u") (Except.ok "d1") [] := by
  refine ⟨by decide, ?_⟩
  exact (double_registration_single_execution [false, true, true]
    ⟨some (JVal.str "why"), none, none⟩ (some "u") (Except.ok "d1") []).2.2
    (by decide)

/-! ## Assistant message rendering

The formatter chain
`.replace(/&/g,'&amp;').replace(/</g,'&lt;').replace(/>/g,'&gt;')
.replace(/\n/g,'<br>').replace(/`...`/g,'<code>...</code>')
.replace(/\*\*...\*\*/g,'<strong>...</strong>')`
is textually identical in every assistant rendering path:
`setBubbleHTML` (`agent-bridge.js` iframe variant), `updateBubbleHTML`
(`agent-bridge.js` intercept variant), `updateResponseBubble`
(`text-chat.js`) and `appendMessage` (request/response chat,
`part_002`); it is embedded once below. -/

/-- The backtick character (U+0060), the code-span delimiter. -/
def backtickChar : Char := '\u0060'

/-- Helper: `dropWhile` never lengthens a list. -/
theorem length_dropWhile_le_gen {α : Type} (p : α → Bool) (l : List α) :
    (l.dropWhile p).length ≤ l.length := by
  induction l with
  | nil => simp
  | cons x xs ih =>
    rw [List.dropWhile_cons]
    cases hp : p x
    · simp
    · simpa using Nat.le_succ_of_le ih

/-- Global single-character replacement, `s.replace(/c/g, r)`. -/
def replaceCharL (c : Char) (r : List Char) : List Char → List Char
  | [] => []
  | x :: xs =>
    if x = c then r ++ replaceCharL c r xs else x :: replaceCharL c r xs

/-- The three entity replacements, applied in source order
(`&` then `<` then `>`). -/
def escapeHtmlL (l : List Char) : List Char :=
  replaceCharL '>' "&gt;".data
    (replaceCharL '<' "&lt;".data
      (replaceCharL '&' "&amp;".data l))

/-- The code-span replacement (global, leftmost matching — the pattern
is a backtick, one or more non-backticks, a backtick; the span body is
the maximal run of non-backticks after the opener, and on a match
scanning resumes after the closing backtick; a backtick that starts no
match is copied and scanning resumes right after it). -/
def codeSpansL : List Char → List Char
  | [] => []
  | c :: cs =>
    if c = backtickChar then
      if cs.takeWhile (fun x => x ≠ backtickChar) ≠ [] ∧
          cs.dropWhile (fun x => x ≠ backtickChar) ≠ [] then
        "<code>".data ++ cs.takeWhile (fun x => x ≠ backtickChar) ++
          "</code>".data ++
          codeSpansL (cs.dropWhile (fun x => x ≠ backtickChar)).tail
      else c :: codeSpansL cs
    else c :: codeSpansL cs
  termination_by l => l.length
  decreasing_by
    all_goals simp only [List.length_cons]
    all_goals first
      | omega
      | { have h1 := length_dropWhile_le_gen (fun x => x ≠ backtickChar) cs
          have h2 := List.length_tail (cs.dropWhile (fun x => x ≠ backtickChar))
          omega }

/-- The strong-span replacement (global, leftmost matching — the
pattern is two asterisks, one or more non-asterisks, two asterisks;
the span body is the maximal run of non-asterisks after the opener,
which must be followed by two asterisks; on failure the first
character is copied and scanning resumes at the next position). -/
def strongSpansL : List Char → List Char
  | [] => []
  | [c] => [c]
  | c :: d :: cs =>
    if c = '*' ∧ d = '*' then
      if cs.takeWhile (fun x => x ≠ '*') ≠ [] ∧
          (cs.dropWhile (fun x => x ≠ '*')).take 2 = ['*', '*'] then
        "<strong>".data ++ cs.takeWhile (fun x => x ≠ '*') ++
          "</strong>".data ++
          strongSpansL ((cs.dropWhile (fun x => x ≠ '*')).drop 2)
      else c :: strongSpansL (d :: cs)
    else c :: strongSpansL (d :: cs)
  termination_by l => l.length
  decreasing_by
    all_goals simp only [List.length_cons]
    all_goals first
      | omega
      | { have h1 := length_dropWhile_le_gen (fun x => x ≠ '*') cs
          have h2 := List.length_drop 2 (cs.dropWhile (fun x => x ≠ '*'))
          omega }

/-- The markup phase applied after entity escaping: newlines to
`<br>`, code spans, strong spans (in source order). -/
def applyMarkupL (l : List Char) : List Char :=
  strongSpansL (codeSpansL (replaceCharL '\n' "<br>".data l))

/-- The shared assistant-message formatter (see section comment for the
four source sites). -/
def formatMessageHtml (s : String) : String :=
  String.mk (applyMarkupL (escapeHtmlL s.data))

/-- Helper: characters of a single-character global replacement come
from the replacement string or are non-`c` originals. -/
theorem mem_replaceCharL (c : Char) (r : List Char) (l : List Char) (x : Char) :
    x ∈ replaceCharL c r l → x ∈ r ∨ (x ∈ l ∧ x ≠ c) := by
  induction l with
  | nil => intro h; simp [replaceCharL] at h
  | cons y ys ih =>
    intro h
    by_cases hy : y = c
    · rw [replaceCharL, if_pos hy] at h
      rcases List.mem_append.mp h with h1 | h1
      · exact Or.inl h1
      · rcases ih h1 with h2 | ⟨h2, h3⟩
        · exact Or.inl h2
        · exact Or.inr ⟨List.mem_cons_of_mem y h2, h3⟩
    · rw [replaceCharL, if_neg hy] at h
      rcases List.mem_cons.mp h with h1 | h1
      · subst h1; exact Or.inr ⟨List.mem_cons_self x ys, hy⟩
      · rcases ih h1 with h2 | ⟨h2, h3⟩
        · exact Or.inl h2
        · exact Or.inr ⟨List.mem_cons_of_mem y h2, h3⟩

/-- Helper: the escaped text contains no raw angle brackets. -/
theorem escapeHtmlL_no_angle (l : List Char) :
    '<' ∉ escapeHtmlL l ∧ '>' ∉ escapeHtmlL l := by
  constructor
  · intro h
    rcases mem_replaceCharL '>' "&gt;".data _ '<' h with h1 | ⟨h1, _⟩
    · simp at h1
    · rcases mem_replaceCharL '<' "&lt;".data _ '<' h1 with h2 | ⟨_, h3⟩
      · simp at h2
      · exact h3 rfl
  · intro h
    rcases mem_replaceCharL '>' "&gt;".data _ '>' h with h1 | ⟨_, h2⟩
    · simp at h1
    · exact h2 rfl

/-- C10: every assistant message text is HTML-escaped before insertion
— the shared formatter (all four rendering paths) factors as the
entity-escaping pass (`&`, `<`, `>` replaced in that order) followed by
the markup pass (newlines to `<br>`, backtick spans to `<code>`,
`**spans**` to `<strong>`), and the escaped text reaching the markup
pass contains no `<` or `>` character at all — so angle brackets in
agent-supplied text can never appear as raw tag delimiters; every `<`
or `>` in the final HTML was introduced by the fixed markup templates.
Concretely, a script tag in agent text renders inert. -/
theorem assistant_html_escaped :
    (∀ s : String,
      formatMessageHtml s = String.mk (applyMarkupL (escapeHtmlL s.data))) ∧
    (∀ s : String, '<' ∉ escapeHtmlL s.data ∧ '>' ∉ escapeHtmlL s.data) ∧
    formatMessageHtml "<script>alert(1)</script>" =
      "&lt;script&gt;alert(1)&lt;/script&gt;" ∧
    formatMessageHtml "a **b** c" = "a <strong>b</strong> c" ∧
    formatMessageHtml "x\ny" = "x<br>y" := by
  refine ⟨fun s => rfl, fun s => escapeHtmlL_no_angle s.data, ?_, ?_, ?_⟩
  · simp [formatMessageHtml, applyMarkupL, escapeHtmlL, replaceCharL,
      codeSpansL, strongSpansL, backtickChar, String.mk]
  · simp [formatMessageHtml, applyMarkupL, escapeHtmlL, replaceCharL,
      codeSpansL, strongSpansL, backtickChar, String.mk]
  · simp [formatMessageHtml, applyMarkupL, escapeHtmlL, replaceCharL,
      codeSpansL, strongSpansL, backtickChar, String.mk]

end BitBuilder
